import Mathlib

/-!
# Verification of the Potbot civic-issue pipeline

Shallow embedding of the orchestration core of the Potbot repository
(src/backend): the classification post-processing (image_agent.py), the
reverse geocoder (form_submission_agent.py), the search-result ranking and
polling loop (brightdata_search.py), the tracking-number extraction
(playwright_integration.py), the social-post composition
(social_media_agent.py) and the pipeline orchestrator (main.py).

Python strings are modelled as Lean `String` (both are sequences of Unicode
code points, so Python `len`/slicing agree with `String.length`/`take`).
Python floats that only ever hold small decimal constants and their sums
(confidence values, relevance scores built from 0.5-granular bonuses) are
modelled as `ℚ`, on which the arithmetic of the source is exact.
External I/O (HTTP calls, subprocesses, the vision model) is modelled by
passing each call result as an explicit input to the embedded function.
-/

namespace Potbot

/-- ASCII whitespace, modelling the whitespace class used by Python
`str.strip` and regex `\s` on the ASCII range. -/
def isWsChar (c : Char) : Bool :=
  c = ' ' || c = '\t' || c = '\n' || c = '\r' || c = '\x0b' || c = '\x0c'

/-- Whether `needle` occurs as a contiguous sublist starting at some
position of `hay`. -/
def listContainsAux (needle : List Char) : List Char → Bool
  | [] => needle.isEmpty
  | c :: cs => needle.isPrefixOf (c :: cs) || listContainsAux needle cs

/-- Python substring containment `needle in hay`. -/
def strContains (hay needle : String) : Bool :=
  listContainsAux needle.data hay.data

/-- Python `str.lower()` (ASCII range, which covers every string the code
compares case-insensitively). -/
def strLower (s : String) : String :=
  ⟨s.data.map Char.toLower⟩

/-- Python `str.upper()` (ASCII range). -/
def strUpper (s : String) : String :=
  ⟨s.data.map Char.toUpper⟩

/-- Python `str.strip()` (ASCII whitespace). -/
def pyStrip (s : String) : String :=
  ⟨((s.data.dropWhile isWsChar).reverse.dropWhile isWsChar).reverse⟩

/-- Python f-string rendering of an optional string: `None` prints as
the four characters `None`. -/
def pyShowOpt (o : Option String) : String :=
  match o with
  | some s => s
  | none => "None"

/-- Python `a or b` on an optional string `a` (`None` and `""` are falsy). -/
def pyOrStr (a : Option String) (b : String) : String :=
  match a with
  | some s => if s = "" then b else s
  | none => b

/-! ## ClassificationStage — image_agent.py

`analyze_image_with_groq` (src/backend/image_agent.py lines 483-531) parses
the provider JSON and then post-processes the category and confidence.  The
provider call itself is I/O; the post-processing below is its exact
embedding, taking the parsed provider fields as inputs. -/

/-- src/backend/image_agent.py lines 16-25. -/
def VALID_CATEGORIES : List String :=
  ["Road Crack", "Sidewalk Crack", "Graffiti", "Overflowing Trash",
   "Faded Street Markings", "Broken Street Light", "Fallen Tree", "None"]

/-- Default confidence threshold: `os.getenv("CONFIDENCE_THRESHOLD", "0.6")`
(src/backend/image_agent.py line 510). -/
def CONFIDENCE_THRESHOLD_default : ℚ := 6/10

/-- Category normalization, src/backend/image_agent.py lines 483-502:
`"None"`-synonyms collapse to `"None"`; a string outside
`VALID_CATEGORIES` is matched by substring containment in either direction
against the valid categories (first hit in list order), defaulting to
`"None"`. -/
def normalize_category (raw : String) : String :=
  if (strLower raw = "none" || strLower raw = "no issue" ||
      strLower raw = "not applicable" || strLower raw = "n/a") then "None"
  else if VALID_CATEGORIES.contains raw then raw
  else
    match VALID_CATEGORIES.find? (fun v =>
        strContains (strLower raw) (strLower v) ||
        strContains (strLower v) (strLower raw)) with
    | some v => v
    | none => "None"

/-- Classification output of the stage (category and confidence after
post-processing). -/
structure ClassificationOut where
  category : String
  confidence : ℚ
  deriving Repr, DecidableEq

/-- Post-processing of the Groq classification result,
src/backend/image_agent.py lines 483-520: normalize the category, clamp the
confidence into `[0,1]`, then force the category to `"None"` (with
confidence `0`) when a non-`"None"` category has clamped confidence below
the threshold. -/
def analyze_image_postprocess (rawCategory : String) (rawConfidence : ℚ)
    (threshold : ℚ) : ClassificationOut :=
  let category := normalize_category rawCategory
  let confidence := min (max rawConfidence 0) 1
  if category ≠ "None" ∧ confidence < threshold then
    { category := "None", confidence := 0 }
  else
    { category := category, confidence := confidence }

/-! ## GeoResolver — form_submission_agent.py `_reverse_geocode` -/

/-- The address fields the code reads from the Nominatim response
(src/backend/form_submission_agent.py lines 183-190).  `none` models an
absent key. -/
structure AddressParts where
  house_number : Option String
  road : Option String
  city : Option String
  town : Option String
  village : Option String
  state : Option String
  postcode : Option String
  deriving Repr, DecidableEq

/-- Result of `_reverse_geocode` (the dictionary it returns). -/
structure GeocodeResult where
  success : Bool
  address : String
  city : String
  state : String
  error : Option String
  deriving Repr, DecidableEq

/-- `FormSubmissionAgent._reverse_geocode`
(src/backend/form_submission_agent.py lines 159-226).  The HTTP call is an
input: `.error e` models a raised exception (timeout or connection error,
caught by the `except` at line 219), `.ok (status, parts)` a response with
its status code and parsed address fields.  `latS`/`lonS` are the decimal
renderings of the coordinates (only used verbatim in strings). -/
def reverse_geocode (latS lonS : String)
    (response : Except String (Nat × AddressParts)) : GeocodeResult :=
  match response with
  | .error e =>
      { success := false, address := latS ++ ", " ++ lonS,
        city := "Unknown", state := "CA", error := some e }
  | .ok (status, parts) =>
      if status = 200 then
        let street_number := parts.house_number.getD ""
        let street := parts.road.getD ""
        let city := pyOrStr parts.city (pyOrStr parts.town
          (parts.village.getD "San Francisco"))
        let state := parts.state.getD "CA"
        let zipcode := parts.postcode.getD ""
        let address_line0 := pyStrip (street_number ++ " " ++ street)
        let address_line :=
          if address_line0 = "" then latS ++ ", " ++ lonS else address_line0
        let full_address0 := address_line ++ ", " ++ city ++ ", " ++ state
        let full_address :=
          if zipcode ≠ "" then full_address0 ++ " " ++ zipcode else full_address0
        { success := true, address := full_address, city := city,
          state := state, error := none }
      else
        { success := false, address := latS ++ ", " ++ lonS,
          city := "Unknown", state := "CA",
          error := some ("Geocoding failed: HTTP " ++ toString status) }

/-! ## AmplificationStage — social_media_agent.py `_generate_optimized_post` -/

/-- Style hints extracted from the AppLovin viral-post analysis
(`viral_insights` dictionary).  `none` models an absent key; the `.get`
defaults of the source are applied inside the composition function. -/
structure ViralInsights where
  optimal_text_length : Option Nat
  top_hashtags : Option (List String)
  emoji_usage : Option String
  cta_style : Option String
  deriving Repr, DecidableEq

/-- src/backend/social_media_agent.py lines 178-186. -/
def category_emojis : List (String × String) :=
  [("Road Crack", "🚗🕳️"), ("Sidewalk Crack", "🚶‍♂️⚠️"), ("Graffiti", "🎨🚫"),
   ("Overflowing Trash", "🗑️♻️"), ("Faded Street Markings", "🚦⚠️"),
   ("Broken Street Light", "💡🔧"), ("Fallen Tree", "🌳⚠️")]

/-- Header line, src/backend/social_media_agent.py lines 188-196. -/
def post_header (category : String) (vi : ViralInsights) : String :=
  let emoji := (category_emojis.lookup category).getD "🚨"
  let emoji_style := vi.emoji_usage.getD "moderate"
  if emoji_style = "high" then
    emoji ++ " " ++ strUpper category ++ " REPORTED " ++ emoji
  else if emoji_style = "low" then category ++ " reported at"
  else emoji ++ " " ++ category ++ " reported"

/-- Call-to-action line, src/backend/social_media_agent.py lines 205-210. -/
def post_cta (vi : ViralInsights) : String :=
  let cta_style := vi.cta_style.getD "direct"
  if cta_style = "urgent" then "Help us fix this! RT to get city attention 🚀"
  else if cta_style = "community" then "Join us in making our streets safer 💪"
  else "Follow for updates"

/-- Hashtag line (top 3 tags), src/backend/social_media_agent.py line 213. -/
def post_hashtags (vi : ViralInsights) : String :=
  " ".intercalate
    (((vi.top_hashtags.getD ["FixOurStreets", "CivicAction"]).take 3).map
      (fun tag => "#" ++ tag))

/-- Python `address.split(",")[0]`
(src/backend/social_media_agent.py line 227). -/
def street_only (address : String) : String :=
  (address.splitOn ",").headD address

/-- `SocialMediaAgent._generate_optimized_post`
(src/backend/social_media_agent.py lines 150-232): compose
header/location/tracking/CTA/hashtag lines; if over 280 drop the CTA; if
still over 280 shorten the location line to street-only; return the first
280 units of the result. -/
def generate_optimized_post (category _description address tracking_number : String)
    (vi : ViralInsights) : String :=
  let header := post_header category vi
  let location_line := "📍 " ++ address
  let tracking_line := "🔢 Track repairs: " ++ tracking_number
  let cta := post_cta vi
  let hashtags := post_hashtags vi
  let post1 := "\n".intercalate [header, location_line, tracking_line, cta, hashtags]
  let post2 :=
    if post1.length > 280 then
      "\n".intercalate [header, location_line, tracking_line, hashtags]
    else post1
  let post3 :=
    if post2.length > 280 then
      "\n".intercalate
        [header, "📍 " ++ street_only address, tracking_line, hashtags]
    else post2
  ⟨post3.data.take 280⟩

/-- The spec-worded composition: the five-line post if it fits in 280
units, else the four-line post without the CTA if that fits, else the
street-only four-line post hard-truncated to 280 as a last resort.  Stated
from the spec to be compared with `generate_optimized_post`. -/
def generate_optimized_post_spec (category _description address tracking_number : String)
    (vi : ViralInsights) : String :=
  let header := post_header category vi
  let location_line := "📍 " ++ address
  let tracking_line := "🔢 Track repairs: " ++ tracking_number
  let cta := post_cta vi
  let hashtags := post_hashtags vi
  let five := "\n".intercalate [header, location_line, tracking_line, cta, hashtags]
  let four := "\n".intercalate [header, location_line, tracking_line, hashtags]
  let fourShort :=
    "\n".intercalate [header, "📍 " ++ street_only address, tracking_line, hashtags]
  if five.length > 280 then
    if four.length > 280 then ⟨fourShort.data.take 280⟩ else four
  else five

/-! ## DiscoveryStage ranking — brightdata_search.py -/

/-- One entry of the `organic` array of the BrightData SERP response
(the fields read at src/backend/brightdata_search.py lines 279-281). -/
structure OrganicResult where
  link : String
  title : String
  description : String
  deriving Repr, DecidableEq

/-- One candidate link record built by `extract_form_links`
(src/backend/brightdata_search.py lines 284-295). -/
structure LinkInfo where
  title : String
  url : String
  snippet : String
  google_rank : Nat
  relevance_score : ℚ
  deriving Repr, DecidableEq

/-- `calculate_relevance` (src/backend/brightdata_search.py lines 342-393):
base score `11 - rank` plus the five additive bonuses.  The `snippet`
argument is lowercased by the source but never used in the score. -/
def calculate_relevance (title url snippet : String) (rank : Nat) (city : String) : ℚ :=
  let city_lower := strLower city
  let title_l := strLower title
  let url_lower := strLower url
  let _snippet_lower := strLower snippet
  ((11 : ℚ) - rank)
  + (if strContains url_lower ".gov" then 5 else 0)
  + (if strContains title_l "report" || strContains title_l "form" ||
        strContains title_l "submit" then 2 else 0)
  + (if strContains title_l "311" || strContains url_lower "311" then 3/2 else 0)
  + (if strContains url_lower city_lower then 1 else 0)
  + (if strContains title_l city_lower then 1/2 else 0)

/-- The candidate-building loop of `extract_form_links`
(src/backend/brightdata_search.py lines 278-295):
`enumerate(organic_results[:10], start=1)`, keeping entries with a
non-empty link and title.  `rank` is the enumeration counter. -/
def build_links (city : String) : Nat → List OrganicResult → List LinkInfo
  | _, [] => []
  | rank, r :: rs =>
    if r.link ≠ "" ∧ r.title ≠ "" then
      { title := r.title, url := r.link, snippet := r.description,
        google_rank := rank,
        relevance_score := calculate_relevance r.title r.link r.description rank city }
        :: build_links city (rank + 1) rs
    else build_links city (rank + 1) rs

/-- Descending comparison on relevance scores, the key of
`links.sort(key=relevance score, reverse=True)`
(src/backend/brightdata_search.py line 330). -/
def scoreGE (a b : LinkInfo) : Prop := b.relevance_score ≤ a.relevance_score

instance : DecidableRel scoreGE :=
  fun a b => inferInstanceAs (Decidable (b.relevance_score ≤ a.relevance_score))

instance : IsTotal LinkInfo scoreGE :=
  ⟨fun a b => le_total b.relevance_score a.relevance_score⟩

instance : IsTrans LinkInfo scoreGE :=
  ⟨fun _ _ _ hab hbc => le_trans hbc hab⟩

/-- `extract_form_links` on the organic-results format
(src/backend/brightdata_search.py lines 268-330): build the candidate
records, then sort by relevance score descending.  Python `list.sort` is
stable, which insertion sort with the strict skip-while-greater policy
reproduces exactly. -/
def extract_form_links (data : List OrganicResult) (city : String) : List LinkInfo :=
  List.insertionSort scoreGE (build_links city 1 (data.take 10))

/-! ## DiscoveryStage polling — brightdata_search.py lines 159-196 -/

/-- One snapshot-endpoint response of the polling loop: its HTTP status,
whether the parsed body passes the non-emptiness check of
src/backend/brightdata_search.py line 178, and an opaque payload standing
for the parsed JSON. -/
structure PollResponse where
  status : Nat
  bodyNonempty : Bool
  payload : String
  deriving Repr, DecidableEq

/-- `max_retries = 30` (src/backend/brightdata_search.py line 159). -/
def max_retries : Nat := 30

/-- `retry_delay = 3` seconds (src/backend/brightdata_search.py line 160). -/
def retry_delay : Nat := 3

/-- The polling loop body (src/backend/brightdata_search.py lines 163-185):
attempt `i` sleeps `retry_delay` seconds and issues a GET whose response is
`f i`.  A 200 response stores the body in `data` and breaks the loop if the
body is non-empty; a 202 ("still processing") and every other status fall
through to the next attempt.  Returns the final `data` and the number of
attempts performed. -/
def pollAux (f : Nat → PollResponse) (acc : Option PollResponse) :
    Nat → Nat → Option PollResponse × Nat
  | i, 0 => (acc, i)
  | i, rem + 1 =>
    let r := f i
    if r.status = 200 then
      if r.bodyNonempty then (some r, i + 1)
      else pollAux f (some r) (i + 1) rem
    else pollAux f acc (i + 1) rem

/-- The whole polling phase of `search_reporting_form`. -/
def poll_snapshot (f : Nat → PollResponse) : Option PollResponse × Nat :=
  pollAux f none 0 max_retries

/-- A response that stops the loop: HTTP 200 with a non-empty body. -/
def pollSuccessAt (f : Nat → PollResponse) (j : Nat) : Prop :=
  (f j).status = 200 ∧ (f j).bodyNonempty = true

instance (f : Nat → PollResponse) (j : Nat) : Decidable (pollSuccessAt f j) :=
  inferInstanceAs (Decidable (_ ∧ _))

lemma pollAux_snd_le (f : Nat → PollResponse) :
    ∀ (rem i : Nat) (acc : Option PollResponse),
      (pollAux f acc i rem).2 ≤ i + rem := by
  intro rem
  induction rem with
  | zero => intro i acc; simp [pollAux]
  | succ rem ih =>
    intro i acc
    rw [pollAux]
    split
    · split
      · show i + 1 ≤ i + (rem + 1)
        omega
      · have := ih (i + 1) (some (f i))
        simpa [Nat.add_assoc, Nat.add_comm 1 rem] using this
    · have := ih (i + 1) acc
      simpa [Nat.add_assoc, Nat.add_comm 1 rem] using this

lemma pollAux_all_fail (f : Nat → PollResponse) :
    ∀ (rem i : Nat) (acc : Option PollResponse),
      (∀ j, i ≤ j → j < i + rem → ¬ pollSuccessAt f j) →
      (pollAux f acc i rem).2 = i + rem := by
  intro rem
  induction rem with
  | zero => intro i acc _; simp [pollAux]
  | succ rem ih =>
    intro i acc hfail
    rw [pollAux]
    split
    · split
      · rename_i h200 hne
        exact absurd ⟨h200, hne⟩ (hfail i (le_refl i) (by omega))
      · have := ih (i + 1) (some (f i)) (fun j hj1 hj2 => hfail j (by omega) (by omega))
        omega
    · have := ih (i + 1) acc (fun j hj1 hj2 => hfail j (by omega) (by omega))
      omega

lemma pollAux_first_success (f : Nat → PollResponse) :
    ∀ (rem i : Nat) (acc : Option PollResponse) (k : Nat),
      i ≤ k → k < i + rem → pollSuccessAt f k →
      (∀ j, i ≤ j → j < k → ¬ pollSuccessAt f j) →
      pollAux f acc i rem = (some (f k), k + 1) := by
  intro rem
  induction rem with
  | zero => intro i acc k h1 h2; omega
  | succ rem ih =>
    intro i acc k h1 h2 hk hfail
    rw [pollAux]
    rcases Nat.eq_or_lt_of_le h1 with heq | hlt
    · subst heq
      simp only [hk.1, if_pos, hk.2, if_true]
    · have hni : ¬ pollSuccessAt f i := hfail i (le_refl i) hlt
      split
      · split
        · rename_i h200 hne
          exact absurd ⟨h200, hne⟩ hni
        · exact ih (i + 1) (some (f i)) k hlt (by omega) hk
            (fun j hj1 hj2 => hfail j (by omega) hj2)
      · exact ih (i + 1) acc k hlt (by omega) hk
          (fun j hj1 hj2 => hfail j (by omega) hj2)

/-- The stability invariant: among equal scores, smaller (earlier) provider
rank comes first. -/
def rankStable (a b : LinkInfo) : Prop :=
  a.relevance_score = b.relevance_score → a.google_rank < b.google_rank

lemma build_links_mem {city : String} :
    ∀ {n : Nat} {rs : List OrganicResult} {l : LinkInfo},
      l ∈ build_links city n rs →
      n ≤ l.google_rank ∧ l.google_rank < n + rs.length ∧
      l.relevance_score =
        calculate_relevance l.title l.url l.snippet l.google_rank city := by
  intro n rs
  induction rs generalizing n with
  | nil => intro l h; simp [build_links] at h
  | cons r rs ih =>
    intro l h
    simp only [build_links] at h
    split at h
    · rcases List.mem_cons.mp h with h | h
      · subst h
        refine ⟨le_refl _, by simp, rfl⟩
      · obtain ⟨h1, h2, h3⟩ := ih h
        exact ⟨le_trans (Nat.le_succ n) h1, by simpa [Nat.succ_add] using h2, h3⟩
    · obtain ⟨h1, h2, h3⟩ := ih h
      exact ⟨le_trans (Nat.le_succ n) h1, by simpa [Nat.succ_add] using h2, h3⟩

lemma build_links_rank_lt {city : String} :
    ∀ (n : Nat) (rs : List OrganicResult),
      (build_links city n rs).Pairwise (fun a b => a.google_rank < b.google_rank) := by
  intro n rs
  induction rs generalizing n with
  | nil => simp [build_links]
  | cons r rs ih =>
    simp only [build_links]
    split
    · refine List.Pairwise.cons ?_ (ih (n + 1))
      intro b hb
      have := (build_links_mem hb).1
      simpa using lt_of_lt_of_le (Nat.lt_succ_self n) this
    · exact ih (n + 1)

lemma orderedInsert_stable {x : LinkInfo} :
    ∀ {l : List LinkInfo}, l.Pairwise rankStable →
      (∀ y ∈ l, x.google_rank < y.google_rank) →
      (l.orderedInsert scoreGE x).Pairwise rankStable := by
  intro l
  induction l with
  | nil => intro _ _; simp [rankStable]
  | cons y l ih =>
    intro hp hr
    rw [List.orderedInsert]
    split
    · exact List.Pairwise.cons (fun z hz => fun _ => hr z hz) hp
    · rename_i hxy
      refine List.Pairwise.cons ?_ (ih (List.Pairwise.of_cons hp)
        (fun z hz => hr z (List.mem_cons_of_mem y hz)))
      intro z hz
      rcases (List.mem_orderedInsert scoreGE).mp hz with hz | hz
      · subst hz
        intro heq
        exact absurd (le_of_eq heq) hxy
      · exact (List.pairwise_cons.mp hp).1 z hz

lemma insertionSort_stable :
    ∀ {l : List LinkInfo},
      l.Pairwise (fun a b => a.google_rank < b.google_rank) →
      (l.insertionSort scoreGE).Pairwise rankStable := by
  intro l
  induction l with
  | nil => intro _; simp
  | cons x l ih =>
    intro hp
    rw [List.insertionSort]
    refine orderedInsert_stable (ih (List.Pairwise.of_cons hp)) ?_
    intro y hy
    exact (List.pairwise_cons.mp hp).1 y ((List.mem_insertionSort scoreGE).mp hy)

/-! ## SubmissionStage extraction — playwright_integration.py

`extract_tracking_number` (src/backend/playwright_integration.py lines
217-252) scans the subprocess stdout with an ordered list of regular
expressions, each capturing one run of digits.  Every pattern in that list
is a literal/character-class prefix, one captured digit run with a
length range, and an optional literal suffix, where each greedy
class is disjoint from the atom that follows it — so the leftmost
greedy search is reproduced exactly by the deterministic matcher below. -/

/-- The apostrophe character (U+0027). -/
def squote : Char := Char.ofNat 39

/-- One regex atom of the tracking-number patterns: a case-insensitive
literal character, `\s*`, an optional quote `["\x27]?`, or the class
`[:\s#]+`. -/
inductive RTok where
  | lit (c : Char)
  | wsStar
  | quoteOpt
  | sepPlus
  deriving Repr, DecidableEq

/-- A character of the class `[:\s#]`. -/
def isSepChar (c : Char) : Bool := c = ':' || isWsChar c || c = '#'

/-- Greedy matching of a list of atoms at the head of the input, returning
the remaining input.  Greediness is exact here because in every pattern of
the source the class of a starred/optional atom is disjoint from the next
atom. -/
def matchToks : List RTok → List Char → Option (List Char)
  | [], s => some s
  | RTok.lit _ :: _, [] => none
  | RTok.lit c :: ts, x :: xs =>
      if x.toLower = c.toLower then matchToks ts xs else none
  | RTok.wsStar :: ts, s => matchToks ts (s.dropWhile isWsChar)
  | RTok.quoteOpt :: ts, [] => matchToks ts []
  | RTok.quoteOpt :: ts, x :: xs =>
      if x = '"' || x = squote then matchToks ts xs else matchToks ts (x :: xs)
  | RTok.sepPlus :: _, [] => none
  | RTok.sepPlus :: ts, x :: xs =>
      if isSepChar x then matchToks ts ((x :: xs).dropWhile isSepChar) else none

/-- One tracking-number pattern: prefix atoms, the captured digit run
(`minDigits` to `maxDigits`, `none` meaning unbounded), suffix atoms. -/
structure RPat where
  pre : List RTok
  minDigits : Nat
  maxDigits : Option Nat
  post : List RTok
  deriving Repr, DecidableEq

/-- A case-insensitive literal string as a list of atoms. -/
def litToks (s : String) : List RTok := s.data.map RTok.lit

/-- Match a pattern anchored at the head of the input, returning the
captured digit run. -/
def matchPatAt (p : RPat) (s : List Char) : Option String :=
  match matchToks p.pre s with
  | none => none
  | some rest =>
    let digits :=
      match p.maxDigits with
      | none => rest.takeWhile (fun c => c.isDigit)
      | some m => (rest.takeWhile (fun c => c.isDigit)).take m
    if p.minDigits ≤ digits.length then
      match matchToks p.post (rest.drop digits.length) with
      | some _ => some ⟨digits⟩
      | none => none
    else none

/-- Python `re.search`: try each start position left to right. -/
def searchPat (p : RPat) : List Char → Option String
  | [] => matchPatAt p []
  | x :: xs =>
    match matchPatAt p (x :: xs) with
    | some t => some t
    | none => searchPat p xs

/-- The ordered pattern list of `extract_tracking_number`
(src/backend/playwright_integration.py lines 228-239), in source order:
`"serviceRequestNumber":\s*"(\d+)"`,
`serviceRequestNumber["\x27]?\s*:\s*["\x27]?(\d+)`,
`Service Request[:\s#]+(\d+)`, `Request[:\s#]+(\d+)`,
`Tracking[:\s#]+(\d+)`, `Case[:\s#]+(\d+)`, `SR[:\s#]+(\d+)`,
`number["\x27]?\s*:\s*["\x27]?(\d{10,})`, `(\d{12})`, `(\d{10,15})`. -/
def TRACKING_PATTERNS : List RPat :=
  [⟨litToks "\"serviceRequestNumber\":" ++ [RTok.wsStar, RTok.lit '"'],
    1, none, [RTok.lit '"']⟩,
   ⟨litToks "serviceRequestNumber" ++
      [RTok.quoteOpt, RTok.wsStar, RTok.lit ':', RTok.wsStar, RTok.quoteOpt],
    1, none, []⟩,
   ⟨litToks "Service Request" ++ [RTok.sepPlus], 1, none, []⟩,
   ⟨litToks "Request" ++ [RTok.sepPlus], 1, none, []⟩,
   ⟨litToks "Tracking" ++ [RTok.sepPlus], 1, none, []⟩,
   ⟨litToks "Case" ++ [RTok.sepPlus], 1, none, []⟩,
   ⟨litToks "SR" ++ [RTok.sepPlus], 1, none, []⟩,
   ⟨litToks "number" ++
      [RTok.quoteOpt, RTok.wsStar, RTok.lit ':', RTok.wsStar, RTok.quoteOpt],
    10, none, []⟩,
   ⟨[], 12, some 12, []⟩,
   ⟨[], 10, some 15, []⟩]

/-- The pattern loop of `extract_tracking_number`
(src/backend/playwright_integration.py lines 241-252): for each pattern in
order, search; on a match whose captured token has at least 8 digits,
return it; otherwise move on to the next pattern. -/
def extract_tracking_loop : List RPat → List Char → Option String
  | [], _ => none
  | p :: ps, s =>
    match searchPat p s with
    | some t => if 8 ≤ t.length then some t else extract_tracking_loop ps s
    | none => extract_tracking_loop ps s

/-- `PlaywrightIntegration.extract_tracking_number`. -/
def extract_tracking_number (output : String) : Option String :=
  extract_tracking_loop TRACKING_PATTERNS output.data

/-- The result record of `PlaywrightIntegration.submit_form` restricted to
the fields the claims are about (the source also carries the raw
stdout/stderr and an extracted address, none of which affect success or
the tracking number). -/
structure SubmitFormResult where
  success : Bool
  tracking_number : Option String
  deriving Repr, DecidableEq

/-- The exit-code handling of `PlaywrightIntegration.submit_form`
(src/backend/playwright_integration.py lines 159-194): a non-zero return
code yields `success=false`; a zero return code yields `success=true` with
the tracking number extracted from stdout (possibly `none`). -/
def submit_form_outcome (returncode : Int) (stdout : String) : SubmitFormResult :=
  if returncode ≠ 0 then { success := false, tracking_number := none }
  else { success := true, tracking_number := extract_tracking_number stdout }

/-- Spec-worded extraction: the token of the first pattern in the ordered
list that matches and yields a token of at least 8 digits. -/
def first_matching_pattern (output : String) : Option String :=
  TRACKING_PATTERNS.findSome? (fun p =>
    match searchPat p output.data with
    | some t => if 8 ≤ t.length then some t else none
    | none => none)

lemma extract_tracking_loop_eq_findSome? :
    ∀ (ps : List RPat) (s : List Char),
      extract_tracking_loop ps s =
        ps.findSome? (fun p =>
          match searchPat p s with
          | some t => if 8 ≤ t.length then some t else none
          | none => none) := by
  intro ps s
  induction ps with
  | nil => rfl
  | cons p ps ih =>
    rw [extract_tracking_loop, List.findSome?_cons]
    cases h : searchPat p s with
    | none => simpa using ih
    | some t =>
      by_cases hl : 8 ≤ t.length
      · simp [hl]
      · simpa [hl] using ih

/-! ## PipelineOrchestrator — main.py `submit_civic_issue`

The endpoint body (src/backend/main.py lines 122-472) sequences the
stages.  Each external call result is an explicit input (`PipelineEnv`);
`Except.error e` on `analysis`/`playwright` models a raised exception
caught by the generic `except` at line 372.  The returned value models the
`PipelineResponse` (minus the wall-clock `created_at`), paired with the
trace of stage invocations actually performed on that path. -/

/-- Fields of `analysis_results` read by the orchestrator. -/
structure AnalysisResult where
  category : String
  Text_Description : String
  confidence : ℚ
  locationDescription : String
  formFields : List (String × String)
  deriving Repr, DecidableEq

/-- Result of `submit_civic_issue_to_city` (Agent #2): the function
catches every exception, so it always returns, with `tracking_number` and
`address` always present strings (a fallback value on failure). -/
structure Agent2Result where
  success : Bool
  tracking_number : String
  address : String
  deriving Repr, DecidableEq

/-- Result of `publish_civic_issue_to_social_media` (Agent #3): the agent
catches every exception, so it always returns. -/
structure SocialResult where
  success : Bool
  post_url : Option String
  deriving Repr, DecidableEq

/-- The `top_link` record of a form-search result (only `url` is read). -/
structure TopLink where
  url : String
  deriving Repr, DecidableEq

/-- Result of `search_reporting_form` (catches every exception). -/
structure FormSearchResult where
  success : Bool
  error : Option String
  top_link : Option TopLink
  deriving Repr, DecidableEq

/-- Result of `submit_to_sfgov` (Playwright submission). -/
structure PwResult where
  success : Bool
  tracking_number : Option String
  address : Option String
  error : Option String
  deriving Repr, DecidableEq

/-- A raised `HTTPException`. -/
structure HttpError where
  status_code : Nat
  detail : String
  deriving Repr, DecidableEq

/-- The `PipelineResponse` pydantic model (src/backend/main.py lines
95-106), minus the wall-clock `created_at` field. -/
structure PipelineResponse where
  tracking_id : String
  status : String
  message : String
  issue_type : Option String
  confidence : Option ℚ
  reporting_url : Option String
  location_description : Option String
  form_fields : Option (List (String × String))
  tracking_number : Option String
  social_post_url : Option String
  deriving Repr, DecidableEq

/-- An external-stage invocation performed by the endpoint. -/
inductive StageEvent where
  | classify
  | agent2Submit
  | socialPost1
  | formSearch
  | playwrightSubmit
  | socialPost2
  deriving Repr, DecidableEq

/-- The external-call results of one pipeline run, plus the UUID generated
at line 148. -/
structure PipelineEnv where
  tracking_id : String
  analysis : Except String AnalysisResult
  agent2 : Agent2Result
  social1 : SocialResult
  form_search : FormSearchResult
  playwright : Except String PwResult
  social2 : SocialResult

/-- The generic-exception response (src/backend/main.py lines 372-390). -/
def error_response (tracking_id msg : String) : PipelineResponse :=
  { tracking_id := tracking_id, status := "error",
    message := "Pipeline error: " ++ msg,
    issue_type := none, confidence := none, reporting_url := none,
    location_description := none, form_fields := none,
    tracking_number := none, social_post_url := none }

/-- The endpoint body of `submit_civic_issue`
(src/backend/main.py lines 157-390): classification, then — for a
non-`"None"` category — Agent #2 (line 192), an unconditional Agent #3
call (line 215), the form search (line 258, raising HTTP 500 on failure or
missing URL, lines 265-278), the Playwright submission (line 285), and a
second Agent #3 call only when a tracking number was extracted (line 320).
When a tracking number is extracted it replaces the response tracking id
(lines 307-308). -/
def submit_civic_issue (env : PipelineEnv) :
    Except HttpError PipelineResponse × List StageEvent :=
  match env.analysis with
  | .error e => (.ok (error_response env.tracking_id e), [.classify])
  | .ok ar =>
    if ar.category = "None" then
      (.ok { tracking_id := env.tracking_id, status := "rejected",
             message := "Image rejected: " ++ ar.Text_Description,
             issue_type := none, confidence := some 0, reporting_url := none,
             location_description := none, form_fields := none,
             tracking_number := none, social_post_url := none },
       [.classify])
    else
      let issue_type := ar.category
      let ev0 : List StageEvent :=
        [.classify, .agent2Submit, .socialPost1, .formSearch]
      if env.form_search.success = false then
        (.error ⟨500, "Failed to find reporting form: " ++
          env.form_search.error.getD "Unknown error"⟩, ev0)
      else
        match env.form_search.top_link with
        | none =>
          (.error ⟨500, "No reporting form URL found for " ++ issue_type ++
            ". Cannot proceed with form submission."⟩, ev0)
        | some top =>
          if top.url = "" then
            (.error ⟨500, "No reporting form URL found for " ++ issue_type ++
              ". Cannot proceed with form submission."⟩, ev0)
          else
            match env.playwright with
            | .error e =>
              (.ok (error_response env.tracking_id e), ev0 ++ [.playwrightSubmit])
            | .ok pw =>
              if pw.success then
                match pw.tracking_number with
                | some t =>
                  (.ok { tracking_id := t, status := "submitted",
                         message :=
                           if env.social2.success then
                             "Issue submitted! Tracking: " ++ t ++ ". Posted: " ++
                               pyShowOpt env.social2.post_url
                           else
                             "Issue submitted successfully! Tracking number: " ++ t,
                         issue_type := some issue_type,
                         confidence := some ar.confidence,
                         reporting_url := some top.url,
                         location_description := some ar.locationDescription,
                         form_fields := some ar.formFields,
                         tracking_number := some t,
                         social_post_url :=
                           if env.social2.success then env.social2.post_url
                           else none },
                   ev0 ++ [.playwrightSubmit, .socialPost2])
                | none =>
                  (.ok { tracking_id := env.tracking_id, status := "submitted",
                         message := "Issue submitted successfully! Internal ID: " ++
                           env.tracking_id,
                         issue_type := some issue_type,
                         confidence := some ar.confidence,
                         reporting_url := some top.url,
                         location_description := some ar.locationDescription,
                         form_fields := some ar.formFields,
                         tracking_number := none, social_post_url := none },
                   ev0 ++ [.playwrightSubmit])
              else
                (.ok { tracking_id := env.tracking_id, status := "analyzed",
                       message := "Issue detected: " ++ issue_type ++
                         ". Form submission failed: " ++ pw.error.getD "Unknown error",
                       issue_type := some issue_type,
                       confidence := some ar.confidence,
                       reporting_url := some top.url,
                       location_description := some ar.locationDescription,
                       form_fields := some ar.formFields,
                       tracking_number := none, social_post_url := none },
                 ev0 ++ [.playwrightSubmit])

/-- The city tracking number extracted by a run: `some t` exactly when the
run reached a successful Playwright submission that produced a tracking
number. -/
def cityTrackingExtracted (env : PipelineEnv) : Option String :=
  match env.analysis with
  | .error _ => none
  | .ok ar =>
    if ar.category = "None" then none
    else if env.form_search.success = false then none
    else
      match env.form_search.top_link with
      | none => none
      | some top =>
        if top.url = "" then none
        else
          match env.playwright with
          | .error _ => none
          | .ok pw => if pw.success then pw.tracking_number else none

/-- The in-memory store update `reports_db[tracking_id] = response_dict`
(src/backend/main.py line 455): keyed by the generated UUID, performed
only when the endpoint returns (not when an `HTTPException` propagates,
which exits before the store). -/
def store_report (db : List (String × PipelineResponse)) (env : PipelineEnv) :
    List (String × PipelineResponse) :=
  match (submit_civic_issue env).1 with
  | .ok r => (env.tracking_id, r) :: db
  | .error _ => db

/-- The `/api/reports/{report_id}` endpoint `get_report_status`
(src/backend/main.py lines 520-525). -/
def get_report_status (db : List (String × PipelineResponse))
    (report_id : String) : Except HttpError PipelineResponse :=
  match db.find? (fun p => p.1 == report_id) with
  | some p => .ok p.2
  | none => .error ⟨404, "Report not found"⟩

lemma pipeline_tracking_id (env : PipelineEnv) (r : PipelineResponse)
    (h : (submit_civic_issue env).1 = .ok r) :
    r.tracking_id = (cityTrackingExtracted env).getD env.tracking_id := by
  rcases env with ⟨tid, analysis, agent2, social1, fs, pw, social2⟩
  cases analysis with
  | error e =>
    simp only [submit_civic_issue, cityTrackingExtracted] at h ⊢
    cases h
    rfl
  | ok ar =>
    by_cases hcat : ar.category = "None"
    · simp only [submit_civic_issue, cityTrackingExtracted, hcat, if_true,
        if_pos] at h ⊢
      · cases h; rfl
    · rcases fs with ⟨fssucc, fserr, fstop⟩
      cases fssucc with
      | false =>
        simp only [submit_civic_issue, hcat] at h
        simp at h
      | true =>
        cases fstop with
        | none =>
          simp only [submit_civic_issue, hcat] at h
          simp at h
        | some top =>
          by_cases hurl : top.url = ""
          · simp only [submit_civic_issue, hcat, hurl] at h
            simp [hurl] at h
          · cases pw with
            | error e =>
              simp only [submit_civic_issue, cityTrackingExtracted, hcat,
                hurl] at h ⊢
              simp [hurl] at h ⊢
              cases h
              rfl
            | ok pwr =>
              by_cases hps : pwr.success = true
              · cases htn : pwr.tracking_number with
                | some t =>
                  simp only [submit_civic_issue, cityTrackingExtracted, hcat,
                    hurl, hps, htn] at h ⊢
                  simp [hurl, hps, htn] at h ⊢
                  cases h
                  rfl
                | none =>
                  simp only [submit_civic_issue, cityTrackingExtracted, hcat,
                    hurl, hps, htn] at h ⊢
                  simp [hurl, hps, htn] at h ⊢
                  cases h
                  rfl
              · simp only [submit_civic_issue, cityTrackingExtracted, hcat,
                  hurl, hps] at h ⊢
                simp [hurl, hps] at h ⊢
                cases h
                rfl

end Potbot

namespace Potbot

/-! ## Theorems for C2 and C9 -/

/-- C2: for every provider-asserted category and confidence and every
threshold, the classification stage output satisfies
`category == "None" ∨ confidence ≥ threshold`; and whenever the normalized
category is not `"None"` but the clamped confidence is below the threshold,
the output category is forced to `"None"`.  The default threshold is 0.6. -/
theorem classification_confidence_gate (rawCategory : String)
    (rawConfidence threshold : ℚ) :
    ((analyze_image_postprocess rawCategory rawConfidence threshold).category
        = "None" ∨
      threshold ≤
        (analyze_image_postprocess rawCategory rawConfidence threshold).confidence) ∧
    (normalize_category rawCategory ≠ "None" →
      min (max rawConfidence 0) 1 < threshold →
      (analyze_image_postprocess rawCategory rawConfidence threshold).category
        = "None") ∧
    CONFIDENCE_THRESHOLD_default = 6/10 := by
  refine ⟨?_, fun h1 h2 => ?_, rfl⟩
  · by_cases hcat : normalize_category rawCategory ≠ "None" ∧
      min (max rawConfidence 0) 1 < threshold
    · left
      simp only [analyze_image_postprocess, if_pos hcat]
    · rcases not_and_or.mp hcat with h | h
      · left
        simp only [analyze_image_postprocess, if_neg hcat]
        exact not_not.mp h
      · right
        simp only [analyze_image_postprocess, if_neg hcat]
        exact not_lt.mp h
  · simp only [analyze_image_postprocess, if_pos (And.intro h1 h2)]

/-- Witness for C2 at a concrete low-confidence input: category
`"Graffiti"` with confidence 0.3 and the default threshold is forced to
`"None"`. -/
theorem classification_confidence_gate_witness :
    (analyze_image_postprocess "Graffiti" (3/10)
        CONFIDENCE_THRESHOLD_default).category = "None" ∧
    normalize_category "Graffiti" ≠ "None" := by
  have h := classification_confidence_gate "Graffiti" (3/10)
    CONFIDENCE_THRESHOLD_default
  refine ⟨h.2.1 (by decide) (by norm_num [CONFIDENCE_THRESHOLD_default]), by decide⟩

/-- C9: reverse geocoding returns a failure value (it never raises): a
provider timeout/exception input and a non-2xx status both yield
`success = false`; and a successful (HTTP 200) response whose city-like
fields (`city`, `town`, `village`) and `state` field are all absent yields
the documented defaults `"San Francisco"` / `"CA"` with `success = true`. -/
theorem reverse_geocode_failure_and_defaults (latS lonS : String)
    (response : Except String (Nat × AddressParts)) :
    (∀ e, response = .error e →
      (reverse_geocode latS lonS response).success = false) ∧
    (∀ status parts, response = .ok (status, parts) → status ≠ 200 →
      (reverse_geocode latS lonS response).success = false) ∧
    (∀ parts, response = .ok (200, parts) →
      parts.city = none → parts.town = none → parts.village = none →
      parts.state = none →
      (reverse_geocode latS lonS response).success = true ∧
      (reverse_geocode latS lonS response).city = "San Francisco" ∧
      (reverse_geocode latS lonS response).state = "CA") := by
  refine ⟨fun e he => ?_, fun status parts hr hs => ?_, fun parts hr hc ht hv hs => ?_⟩
  · subst he; rfl
  · subst hr; simp [reverse_geocode, hs]
  · subst hr
    simp [reverse_geocode, hc, ht, hv, hs, pyOrStr]

/-- Witness for C9: a timeout, a 404 response, and a 200 response with all
address fields absent, each at concrete inputs. -/
theorem reverse_geocode_failure_and_defaults_witness :
    (reverse_geocode "37.7749" "-122.4194" (.error "timeout")).success = false ∧
    (reverse_geocode "37.7749" "-122.4194"
      (.ok (404, ⟨none, none, none, none, none, none, none⟩))).success = false ∧
    (reverse_geocode "37.7749" "-122.4194"
      (.ok (200, ⟨none, none, none, none, none, none, none⟩))).city
        = "San Francisco" := by
  refine ⟨?_, ?_, ?_⟩
  · exact (reverse_geocode_failure_and_defaults "37.7749" "-122.4194"
      (.error "timeout")).1 "timeout" rfl
  · exact (reverse_geocode_failure_and_defaults "37.7749" "-122.4194"
      (.ok (404, ⟨none, none, none, none, none, none, none⟩))).2.1 404
      ⟨none, none, none, none, none, none, none⟩ rfl (by decide)
  · exact ((reverse_geocode_failure_and_defaults "37.7749" "-122.4194"
      (.ok (200, ⟨none, none, none, none, none, none, none⟩))).2.2
      ⟨none, none, none, none, none, none, none⟩ rfl rfl rfl rfl rfl).2.1

/-- A classification result for a valid civic issue, used by the concrete
pipeline runs below. -/
def arRoadCrack : AnalysisResult :=
  { category := "Road Crack", Text_Description := "Large pothole in the road",
    confidence := 1, locationDescription := "center of right lane",
    formFields := [("damageType", "pothole")] }

/-- A run in which Agent #2 failed (`success=false`, fallback tracking
number) and the rest of the pipeline continued. -/
def envC1 : PipelineEnv :=
  { tracking_id := "uuid-internal-0002",
    analysis := .ok arRoadCrack,
    agent2 := { success := false, tracking_number := "DEMO311-2025-nal002",
                address := "Location: 37.7749, -122.4194" },
    social1 := { success := true, post_url := some "https://twitter.com/bot/status/1" },
    form_search := { success := true, error := none,
                     top_link := some ⟨"https://sf.gov/report"⟩ },
    playwright := .ok { success := false, tracking_number := none,
                        address := none, error := some "form timeout" },
    social2 := { success := false, post_url := none } }

/-- C1 counterexample: at a concrete run in which Agent #2 reported
`success == false` and the Playwright submission also failed, the first
social-media call (src/backend/main.py line 215) is still invoked — a
social post is attempted for a report whose submission did not succeed. -/
theorem amplification_despite_failed_submission :
    envC1.agent2.success = false ∧
    (match envC1.playwright with
      | .ok pw => pw.success
      | .error _ => false) = false ∧
    StageEvent.socialPost1 ∈ (submit_civic_issue envC1).2 := by
  decide

/-- C1 as amended: the first amplification call is made for every report
that passes classification, unconditionally on submission success
(src/backend/main.py line 215); the second amplification call is made
exactly when the Playwright submission succeeded and extracted a tracking
number (src/backend/main.py line 320). -/
theorem amplification_policy (env : PipelineEnv) :
    (StageEvent.socialPost1 ∈ (submit_civic_issue env).2 ↔
      ∃ ar, env.analysis = .ok ar ∧ ar.category ≠ "None") ∧
    (StageEvent.socialPost2 ∈ (submit_civic_issue env).2 ↔
      cityTrackingExtracted env ≠ none) := by
  rcases env with ⟨tid, analysis, agent2, social1, ⟨fssucc, fserr, fstop⟩, pw, social2⟩
  cases analysis with
  | error e => constructor <;> simp [submit_civic_issue, cityTrackingExtracted]
  | ok ar =>
    by_cases hcat : ar.category = "None"
    · constructor <;> simp [submit_civic_issue, cityTrackingExtracted, hcat]
    · cases fssucc with
      | false =>
        constructor <;> simp [submit_civic_issue, cityTrackingExtracted, hcat]
      | true =>
        cases fstop with
        | none =>
          constructor <;> simp [submit_civic_issue, cityTrackingExtracted, hcat]
        | some top =>
          by_cases hurl : top.url = ""
          · constructor <;>
              simp [submit_civic_issue, cityTrackingExtracted, hcat, hurl]
          · cases pw with
            | error e =>
              constructor <;>
                simp [submit_civic_issue, cityTrackingExtracted, hcat, hurl]
            | ok pwr =>
              by_cases hps : pwr.success = true
              · cases htn : pwr.tracking_number with
                | some t =>
                  constructor <;>
                    simp [submit_civic_issue, cityTrackingExtracted, hcat, hurl,
                      hps, htn]
                | none =>
                  constructor <;>
                    simp [submit_civic_issue, cityTrackingExtracted, hcat, hurl,
                      hps, htn]
              · constructor <;>
                  simp [submit_civic_issue, cityTrackingExtracted, hcat, hurl, hps]

/-- Witness for C1 (amended) at the concrete run `envC1`: classification
passed, so the first social call happened; no tracking number was
extracted, so the second did not. -/
theorem amplification_policy_witness :
    StageEvent.socialPost1 ∈ (submit_civic_issue envC1).2 ∧
    StageEvent.socialPost2 ∉ (submit_civic_issue envC1).2 :=
  ⟨(amplification_policy envC1).1.mpr ⟨arRoadCrack, rfl, by decide⟩,
    fun hmem =>
      ((amplification_policy envC1).2.mp hmem) (by decide)⟩

/-- A run in which the discovery stage failed to find a form. -/
def envC7 : PipelineEnv :=
  { tracking_id := "uuid-internal-0003",
    analysis := .ok arRoadCrack,
    agent2 := { success := true, tracking_number := "SF311-2025-123456",
                address := "123 Market St" },
    social1 := { success := true, post_url := some "https://twitter.com/bot/status/2" },
    form_search := { success := false,
                     error := some "Could not determine city from coordinates",
                     top_link := none },
    playwright := .ok { success := true, tracking_number := some "101002861293",
                        address := some "123 Market St", error := none },
    social2 := { success := true, post_url := some "https://twitter.com/bot/status/3" } }

/-- Projection of a raised HTTP error. -/
def httpErrorOf (x : Except HttpError PipelineResponse) : Option HttpError :=
  match x with
  | .error e => some e
  | .ok _ => none

/-- C7 counterexample: at a concrete run whose discovery stage finds no
form, the endpoint raises an HTTP 500 error — the caller receives an
HTTP-level error, not a structured "classified" result. -/
theorem discovery_failure_counterexample :
    httpErrorOf (submit_civic_issue envC7).1 =
      some ⟨500, "Failed to find reporting form: Could not determine city from coordinates"⟩ := by
  decide

/-- C7 as amended: whenever the classification accepted the image but the
discovery stage reports failure, returns no top link, or returns an empty
URL, the endpoint raises an HTTP 500 error (an `HTTPException`, re-raised
at src/backend/main.py line 371); no structured result is returned. -/
theorem discovery_failure_http_500 (env : PipelineEnv) (ar : AnalysisResult)
    (h1 : env.analysis = .ok ar) (h2 : ar.category ≠ "None")
    (h3 : env.form_search.success = false ∨ env.form_search.top_link = none ∨
      ∃ top, env.form_search.top_link = some top ∧ top.url = "") :
    ∃ d, (submit_civic_issue env).1 = .error ⟨500, d⟩ := by
  rcases env with ⟨tid, analysis, agent2, social1, ⟨fssucc, fserr, fstop⟩, pw, social2⟩
  simp only at h1
  subst h1
  rcases h3 with h3 | h3 | ⟨top, h3, h4⟩ <;> simp only at h3
  · subst h3
    simp [submit_civic_issue, h2]
  · subst h3
    cases fssucc <;> simp [submit_civic_issue, h2]
  · subst h3
    cases fssucc <;> simp [submit_civic_issue, h2, h4]

/-- Witness for C7 (amended), applied at the concrete failed-discovery
run. -/
theorem discovery_failure_http_500_witness :
    ∃ d, (submit_civic_issue envC7).1 = .error ⟨500, d⟩ :=
  discovery_failure_http_500 envC7 arRoadCrack rfl (by decide) (Or.inl rfl)

/-- A run in which the Playwright submission succeeded and extracted a
city tracking number. -/
def envC8 : PipelineEnv :=
  { tracking_id := "uuid-internal-0001",
    analysis := .ok arRoadCrack,
    agent2 := { success := true, tracking_number := "SF311-2025-654321",
                address := "55 Elm St" },
    social1 := { success := true, post_url := some "https://twitter.com/bot/status/4" },
    form_search := { success := true, error := none,
                     top_link := some ⟨"https://sf.gov/report"⟩ },
    playwright := .ok { success := true, tracking_number := some "101002861293",
                        address := some "55 Elm St", error := none },
    social2 := { success := false, post_url := none } }

/-- Projection of the tracking id of a returned (non-error) response. -/
def okTrackingId (x : Except HttpError PipelineResponse) : Option String :=
  match x with
  | .ok r => some r.tracking_id
  | .error _ => none

/-- C8 counterexample: at a concrete run in which the submission stage
extracted the city tracking number `101002861293`, the returned
`tracking_id` is that city number, not the identifier generated at
pipeline start. -/
theorem tracking_id_swap_counterexample :
    okTrackingId (submit_civic_issue envC8).1 = some "101002861293" ∧
    envC8.tracking_id = "uuid-internal-0001" ∧
    okTrackingId (submit_civic_issue envC8).1 ≠ some envC8.tracking_id := by
  decide

/-- C8 as amended: the `tracking_id` of the result returned to the caller
equals the identifier generated at pipeline start, except when the
submission stage extracted a city tracking number, in which case the
returned `tracking_id` is that city tracking number
(src/backend/main.py lines 307-308). -/
theorem tracking_id_amended (env : PipelineEnv) (r : PipelineResponse)
    (h : (submit_civic_issue env).1 = .ok r) :
    r.tracking_id = (cityTrackingExtracted env).getD env.tracking_id :=
  pipeline_tracking_id env r h

/-- Witness for C8 (amended) at the concrete run `envC8`. -/
theorem tracking_id_amended_witness :
    okTrackingId (submit_civic_issue envC8).1
      = some ((cityTrackingExtracted envC8).getD envC8.tracking_id) := by
  cases hok : (submit_civic_issue envC8).1 with
  | error e =>
    have h1 : okTrackingId (submit_civic_issue envC8).1 = none := by
      rw [hok]; rfl
    have h2 : okTrackingId (submit_civic_issue envC8).1 = some "101002861293" := by
      decide
    rw [h1] at h2
    exact absurd h2 (by decide)
  | ok r =>
    have h := tracking_id_amended envC8 r hok
    simp [okTrackingId, h]

/-- A run with an extracted city tracking number, used against the report
store. -/
def envC10 : PipelineEnv :=
  { tracking_id := "uuid-internal-0004",
    analysis := .ok arRoadCrack,
    agent2 := { success := true, tracking_number := "SF311-2025-777777",
                address := "9 Oak St" },
    social1 := { success := false, post_url := none },
    form_search := { success := true, error := none,
                     top_link := some ⟨"https://sf.gov/report"⟩ },
    playwright := .ok { success := true, tracking_number := some "101002861999",
                        address := some "9 Oak St", error := none },
    social2 := { success := false, post_url := none } }

/-- C10: the in-process store is keyed by the generated UUID even when the
returned `tracking_id` was replaced by the extracted city tracking number;
looking the report up by the returned `tracking_id` through
`get_report_status` then fails with a 404, while the UUID key still finds
it. -/
theorem report_lookup_mismatch (db : List (String × PipelineResponse))
    (env : PipelineEnv) (r : PipelineResponse) (t : String)
    (hok : (submit_civic_issue env).1 = .ok r)
    (hex : cityTrackingExtracted env = some t)
    (hne : t ≠ env.tracking_id)
    (hfresh : db.find? (fun p => p.1 == t) = none) :
    r.tracking_id = t ∧
    get_report_status (store_report db env) r.tracking_id
      = .error ⟨404, "Report not found"⟩ ∧
    get_report_status (store_report db env) env.tracking_id = .ok r := by
  have hid : r.tracking_id = t := by
    have := pipeline_tracking_id env r hok
    rwa [hex] at this
  have hstore : store_report db env = (env.tracking_id, r) :: db := by
    unfold store_report
    rw [hok]
  refine ⟨hid, ?_, ?_⟩
  · rw [hstore, hid]
    unfold get_report_status
    rw [List.find?_cons_of_neg _ (by simpa using Ne.symm hne), hfresh]
  · rw [hstore]
    unfold get_report_status
    rw [List.find?_cons_of_pos _ (by simp)]

/-- The response returned by the run `envC10`. -/
def rC10 : PipelineResponse :=
  { tracking_id := "101002861999", status := "submitted",
    message := "Issue submitted successfully! Tracking number: 101002861999",
    issue_type := some "Road Crack",
    confidence := some 1,
    reporting_url := some "https://sf.gov/report",
    location_description := some "center of right lane",
    form_fields := some [("damageType", "pothole")],
    tracking_number := some "101002861999",
    social_post_url := none }

/-- Witness for C10: the concrete run `envC10` stored in an empty store;
the returned tracking id `101002861999` is not found (404) while the
internal UUID key is. -/
theorem report_lookup_mismatch_witness :
    rC10.tracking_id = "101002861999" ∧
    get_report_status (store_report [] envC10) "101002861999"
      = .error ⟨404, "Report not found"⟩ ∧
    get_report_status (store_report [] envC10) "uuid-internal-0004" = .ok rC10 :=
  report_lookup_mismatch [] envC10 rC10 "101002861999" rfl rfl (by decide) rfl

/-- C5: when the form-automation subprocess exits with code 0, the
submission result has `success = true` and its tracking number is the
result of applying the ordered pattern list to stdout, taking the first
pattern that matches and yields a token of at least 8 digits; when no
pattern yields such a token the tracking number is `null` while success
remains `true`. -/
theorem tracking_extraction (stdout : String) :
    (submit_form_outcome 0 stdout).success = true ∧
    (submit_form_outcome 0 stdout).tracking_number
      = extract_tracking_number stdout ∧
    extract_tracking_number stdout = first_matching_pattern stdout ∧
    (extract_tracking_number stdout = none →
      (submit_form_outcome 0 stdout).success = true ∧
      (submit_form_outcome 0 stdout).tracking_number = none) := by
  refine ⟨rfl, rfl, ?_, ?_⟩
  · exact extract_tracking_loop_eq_findSome? TRACKING_PATTERNS stdout.data
  · intro h
    exact ⟨rfl, h⟩

/-- Witness for C5: a stdout with no digit token at all yields
`success=true` with no tracking number, and a JSON-style stdout yields the
captured service-request number. -/
theorem tracking_extraction_witness :
    (submit_form_outcome 0 "Form submitted, confirmation pending").success = true ∧
    (submit_form_outcome 0 "Form submitted, confirmation pending").tracking_number
      = none ∧
    extract_tracking_number "done. \"serviceRequestNumber\": \"101002860550\""
      = some "101002860550" := by
  have h := tracking_extraction "Form submitted, confirmation pending"
  refine ⟨h.1, ?_, by decide⟩
  rw [h.2.1]
  decide

/-- A response function whose first attempt returns HTTP 404 and whose
second returns HTTP 200 with data. -/
def f404poll : Nat → PollResponse :=
  fun i => if i = 0 then ⟨404, false, "error"⟩ else ⟨200, true, "results"⟩

/-- A response function returning HTTP 500 on the first three attempts and
HTTP 200 with data on the fourth. -/
def f500poll : Nat → PollResponse :=
  fun i => if i < 3 then ⟨500, false, "error"⟩ else ⟨200, true, "results"⟩

/-- C4 counterexample: the polling loop retries after a 4xx response (a
404 on attempt 1 is followed by a second attempt that succeeds), and a
non-success status is retried more than once (three consecutive 500s are
each followed by another attempt). -/
theorem polling_4xx_retried_counterexample :
    (400 ≤ (f404poll 0).status ∧ (f404poll 0).status < 500 ∧
      (poll_snapshot f404poll).2 = 2 ∧
      (poll_snapshot f404poll).1 = some (f404poll 1)) ∧
    ((f500poll 0).status = 500 ∧ (f500poll 1).status = 500 ∧
      (f500poll 2).status = 500 ∧
      (poll_snapshot f500poll).2 = 4 ∧
      (poll_snapshot f500poll).1 = some (f500poll 3)) := by
  decide

/-- C4 as amended: the polling loop waits a fixed 3-second interval and
performs at most 30 attempts; a "still processing" (202) response, any
other non-success status and 4xx-class errors are all treated alike as
retryable — the loop stops early exactly at the first 200 response with
non-empty data, and otherwise exhausts all 30 attempts. -/
theorem polling_retry_policy (f : Nat → PollResponse) :
    (poll_snapshot f).2 ≤ max_retries ∧ max_retries = 30 ∧ retry_delay = 3 ∧
    (∀ k, k < max_retries → pollSuccessAt f k →
      (∀ j, j < k → ¬ pollSuccessAt f j) →
      (poll_snapshot f).1 = some (f k) ∧ (poll_snapshot f).2 = k + 1) ∧
    ((∀ j, j < max_retries → ¬ pollSuccessAt f j) →
      (poll_snapshot f).2 = max_retries) := by
  refine ⟨by simpa using pollAux_snd_le f max_retries 0 none, rfl, rfl, ?_, ?_⟩
  · intro k hk hsk hfail
    have h := pollAux_first_success f max_retries 0 none k (Nat.zero_le k)
      (by simpa using hk) hsk (fun j _ hj2 => hfail j hj2)
    unfold poll_snapshot
    rw [h]
    exact ⟨rfl, rfl⟩
  · intro hfail
    unfold poll_snapshot
    simpa using pollAux_all_fail f max_retries 0 none
      (fun j _ hj => hfail j (by simpa using hj))

/-- Witness for C4 (amended): a run where every attempt returns 202
exhausts exactly 30 attempts. -/
theorem polling_retry_policy_witness :
    (poll_snapshot (fun _ => ⟨202, false, ""⟩)).2 = max_retries :=
  (polling_retry_policy (fun _ => ⟨202, false, ""⟩)).2.2.2.2
    (fun j _ => by simp [pollSuccessAt])

/-- C3: every candidate produced by `extract_form_links` has a 1-based
provider rank in `[1,10]` and a relevance score equal to `(11 − r)` —
which on those ranks coincides with its clamp to a minimum of 1 — plus 5.0
for a `.gov` URL, 2.0 for a report/form/submit keyword in the title, 1.5
for a `311` reference in title or URL, 1.0 for the city name in the URL
and 0.5 for the city name in the title (case-insensitively); and the
candidate list is a permutation of the built candidates sorted descending
by score, with ties keeping the original provider order. -/
theorem search_ranking (data : List OrganicResult) (city : String) :
    (∀ l ∈ extract_form_links data city,
      1 ≤ l.google_rank ∧ l.google_rank ≤ 10 ∧
      l.relevance_score =
        max 1 ((11 : ℚ) - l.google_rank)
        + (if strContains (strLower l.url) ".gov" then 5 else 0)
        + (if strContains (strLower l.title) "report" ||
              strContains (strLower l.title) "form" ||
              strContains (strLower l.title) "submit" then 2 else 0)
        + (if strContains (strLower l.title) "311" ||
              strContains (strLower l.url) "311" then 3/2 else 0)
        + (if strContains (strLower l.url) (strLower city) then 1 else 0)
        + (if strContains (strLower l.title) (strLower city) then 1/2 else 0)) ∧
    (extract_form_links data city).Perm (build_links city 1 (data.take 10)) ∧
    (extract_form_links data city).Pairwise
      (fun a b => b.relevance_score ≤ a.relevance_score) ∧
    (extract_form_links data city).Pairwise rankStable := by
  refine ⟨?_, ?_, ?_, ?_⟩
  · intro l hl
    have hl' : l ∈ build_links city 1 (data.take 10) :=
      (List.mem_insertionSort scoreGE).mp hl
    obtain ⟨h1, h2, h3⟩ := build_links_mem hl'
    have h10 : l.google_rank ≤ 10 := by
      have := List.length_take_le 10 data
      omega
    refine ⟨h1, h10, ?_⟩
    have hmax : max 1 ((11 : ℚ) - l.google_rank) = (11 : ℚ) - l.google_rank := by
      have : (l.google_rank : ℚ) ≤ 10 := by exact_mod_cast h10
      rw [max_eq_right]
      linarith
    rw [h3, hmax]
    rfl
  · exact List.perm_insertionSort scoreGE _
  · exact List.sorted_insertionSort scoreGE _
  · exact insertionSort_stable (build_links_rank_lt 1 _)

/-- Witness for C3 at a concrete result set: a rank-2 `.gov` result with
keyword, 311, and city bonuses outscores and precedes a rank-1 plain
result after sorting. -/
theorem search_ranking_witness :
    (extract_form_links
        [⟨"https://example.com/news", "City news", ""⟩,
         ⟨"https://sf.gov/report-311", "Report a pothole", ""⟩]
        "SF").Pairwise (fun a b => b.relevance_score ≤ a.relevance_score) ∧
    (extract_form_links
        [⟨"https://example.com/news", "City news", ""⟩,
         ⟨"https://sf.gov/report-311", "Report a pothole", ""⟩]
        "SF").Pairwise rankStable :=
  ⟨(search_ranking
      [⟨"https://example.com/news", "City news", ""⟩,
       ⟨"https://sf.gov/report-311", "Report a pothole", ""⟩] "SF").2.2.1,
    (search_ranking
      [⟨"https://example.com/news", "City news", ""⟩,
       ⟨"https://sf.gov/report-311", "Report a pothole", ""⟩] "SF").2.2.2⟩

/-- C6: for every combination of style hints, category, description,
address, tracking number and hashtag list, the composed social post has
length at most 280; and the composition equals the staged fallback the spec
describes: five-line post if it fits, else drop the CTA line, else shorten
the location line to street-only and hard-truncate to 280 as a last
resort. -/
theorem social_post_length_cap (category description address tracking_number : String)
    (vi : ViralInsights) :
    (generate_optimized_post category description address tracking_number vi).length
      ≤ 280 ∧
    generate_optimized_post category description address tracking_number vi
      = generate_optimized_post_spec category description address tracking_number vi := by
  constructor
  · show (List.take 280 _).length ≤ 280
    rw [List.length_take]
    exact min_le_left _ _
  · show (⟨List.take 280 _⟩ : String) = _
    simp only [generate_optimized_post_spec]
    split_ifs with h1 h2
    · rfl
    · congr 1
      exact List.take_of_length_le (Nat.not_lt.mp h2)
    · congr 1
      exact List.take_of_length_le (Nat.not_lt.mp h1)

end Potbot
